import Mathlib

/-!
Verification of the configuration-validation utilities of the
rctab-infrastructure repository (`rctab_infrastructure/utils.py`, with the
older historical copy in `src/utils.py`).  Python functions are shallowly
embedded: optional strings become `Option String`, functions that may raise
become `Except String _` (the error string is the exception message), and
Python string primitives (`strip`, `upper`, `split`, `isdecimal`,
`uuid.UUID` parsing, `re.match`) are modelled over ASCII.
-/

namespace Rctab

instance {ε α : Type} [DecidableEq ε] [DecidableEq α] :
    DecidableEq (Except ε α)
  | .error a, .error b =>
    if h : a = b then .isTrue (by rw [h])
    else .isFalse (by intro hc; cases hc; exact h rfl)
  | .error _, .ok _ => .isFalse (by intro hc; cases hc)
  | .ok _, .error _ => .isFalse (by intro hc; cases hc)
  | .ok a, .ok b =>
    if h : a = b then .isTrue (by rw [h])
    else .isFalse (by intro hc; cases hc; exact h rfl)

/-- Python whitespace characters stripped by `str.strip()` (ASCII range). -/
def isPySpace (c : Char) : Bool :=
  c = ' ' || c = '\t' || c = '\n' || c = '\r' || c = '\x0b' || c = '\x0c'

/-- Strip characters satisfying `p` from both ends of a string
(models Python `str.strip(chars)`). -/
def pyStripWith (p : Char → Bool) (s : String) : String :=
  String.mk (((s.data.dropWhile p).reverse.dropWhile p).reverse)

/-- Python `str.strip()`: remove surrounding whitespace. -/
def pyStrip (s : String) : String := pyStripWith isPySpace s

/-- Python `str.upper()` restricted to ASCII letters. -/
def pyUpper (s : String) : String := String.mk (s.data.map Char.toUpper)

/-- Python `str.split(sep)` for a one-character separator, accumulating the
current field in reverse. -/
def pySplitAux (sep : Char) (acc : List Char) : List Char → List String
  | [] => [String.mk acc.reverse]
  | c :: rest =>
    if c = sep then String.mk acc.reverse :: pySplitAux sep [] rest
    else pySplitAux sep (c :: acc) rest

/-- Python `str.split(sep)` for a one-character separator: always returns at
least one (possibly empty) field. -/
def pySplit (sep : Char) (s : String) : List String := pySplitAux sep [] s.data

/-- Python `", ".join(items)`. -/
def joinComma : List String → String
  | [] => ""
  | [x] => x
  | x :: y :: rest => x ++ ", " ++ joinComma (y :: rest)

/-- Python `str.isdecimal()` over ASCII: non-empty and all characters are
decimal digits. -/
def pyIsDecimal (s : String) : Bool := !s.isEmpty && s.data.all Char.isDigit

/-- A character of the identifier character class `[a-zA-Z0-9-]`. -/
def identChar (c : Char) : Bool := c.isAlpha || c.isDigit || c = '-'

/-- One run of the regex `[a-zA-Z0-9-]\x7b3,20\x7d` covering a whole
character list: length between 3 and 20 and every character in the class. -/
def classRun (l : List Char) : Bool :=
  3 ≤ l.length && l.length ≤ 20 && l.all identChar

/-- Python `re.match` of `^[a-zA-Z0-9-]\x7b3,20\x7d$` against a list of
characters.  Python `$` matches at the end of the string or just before a
single trailing newline, hence the second disjunct. -/
def matchIdentList (l : List Char) : Bool :=
  classRun l || (l.getLast? = some '\n' && classRun l.dropLast)

/-- `re.match(r"^[a-zA-Z0-9-]\x7b3,20\x7d$", s)` viewed as a Boolean. -/
def pyMatchIdent (s : String) : Bool := matchIdentList s.data

/-- The assertion message of the pattern check in
`validate_ticker_stack_combination` (current copy). -/
def patternMsg (org_stack : String) : String :=
  "The organisation and stack name must match the pattern " ++
    "\x27^[a-zA-Z0-9-]\x7b3,20\x7d$\x27 but is \x27" ++ org_stack ++ "\x27."

/-- `validate_ticker_stack_combination` from
`rctab_infrastructure/utils.py` (the current copy): asserts
`len(ticker) > 1`, `len(ticker) < 7`, and that
`f"{ticker}-{stack}-abcdefgh"` matches `^[a-zA-Z0-9-]\x7b3,20\x7d$`; on
success returns `f"{ticker}-{stack}"`. -/
def validate_ticker_stack_combination (ticker stack : String) :
    Except String String :=
  let proposed_identifier := ticker ++ "-" ++ stack
  let org_stack := proposed_identifier ++ "-abcdefgh"
  if ticker.length ≤ 1 then
    .error "Ticker cannot be less than 2 characters"
  else if 7 ≤ ticker.length then
    .error "Ticker cannot be more than 6 characters"
  else if pyMatchIdent org_stack then
    .ok proposed_identifier
  else
    .error (patternMsg org_stack)

/-- `validate_ticker_stack_combination` from the older historical copy
`src/utils.py`: identical except the upper ticker bound is
`len(ticker) < 6` (so tickers of 2 to 5 characters) and the pattern
assertion message is a Python tuple, modelled here by its first
component. -/
def validate_ticker_stack_combination_v0 (ticker stack : String) :
    Except String String :=
  let proposed_identifier := ticker ++ "-" ++ stack
  let org_stack := proposed_identifier ++ "-abcdefgh"
  if ticker.length ≤ 1 then
    .error "Ticker cannot be less than 2 characters"
  else if 6 ≤ ticker.length then
    .error "Ticker cannot be more than 5 characters"
  else if pyMatchIdent org_stack then
    .ok proposed_identifier
  else
    .error ("The organisation and stack name must match the pattern " ++
      "\x27^[a-zA-Z0-9-]\x7b3,20\x7d$\x27. ")

/-- `format_list_str`: if the input is truthy (a non-empty string), split on
commas, strip each item, wrap each in double quotes and join inside square
brackets; otherwise return the input unchanged. -/
def format_list_str (input_str : Option String) : Option String :=
  match input_str with
  | none => none
  | some s =>
    if s.isEmpty then some s
    else
      some ("[" ++
        joinComma
          ((pySplit ',' s).map fun item => "\x22" ++ pyStrip item ++ "\x22") ++
        "]")

/-- `format_list_int`: if the input is truthy, wrap the raw string in square
brackets (no per-item quoting or stripping); otherwise return it unchanged. -/
def format_list_int (input_str : Option String) : Option String :=
  match input_str with
  | none => none
  | some s => if s.isEmpty then some s else some ("[" ++ s ++ "]")

/-- `assert_str_true_or_false`: if the input is truthy it must be exactly
"true" or "false"; falsy input (None or "") passes through unchecked. -/
def assert_str_true_or_false (checkstr : Option String) :
    Except String (Option String) :=
  match checkstr with
  | none => .ok none
  | some s =>
    if s.isEmpty then .ok (some s)
    else if s = "true" || s = "false" then .ok (some s)
    else
      .error (s ++
        " is an invalid value. Allowed values are \x27true\x27 or \x27false\x27.")

/-- The `NameValuePairArgs` record of the cloud SDK: an environment-style
name/value pair. -/
structure NameValuePairArgs where
  name : String
  value : String
deriving DecidableEq, Repr

/-- `raise_billing_or_mgmt` (current copy): exactly one of the `billing` and
`mgmt` entries of the kwargs must be truthy (a non-empty string); returns
the corresponding name/value pair, raising distinct `ValueError`s when both
or neither are set. -/
def raise_billing_or_mgmt (billing mgmt : String) :
    Except String NameValuePairArgs :=
  if !billing.isEmpty && !mgmt.isEmpty then
    .error ("Only one of billing_account_id or usage_mgmt_group " ++
      "should be set but both are.")
  else if billing.isEmpty && mgmt.isEmpty then
    .error ("One of billing_account_id or usage_mgmt_group " ++
      "should be set but neither is.")
  else if !billing.isEmpty then
    .ok ⟨"BILLING_ACCOUNT_ID", billing⟩
  else
    .ok ⟨"MGMT_GROUP", mgmt⟩

/-- ASCII hexadecimal digit, as accepted by Python `int(_, 16)`. -/
def isHexDigitPy (c : Char) : Bool :=
  c.isDigit || (97 ≤ c.toNat && c.toNat ≤ 102) || (65 ≤ c.toNat && c.toNat ≤ 70)

/-- Tail of a Python integer-literal digit run in base 16: hexadecimal
digits where a single underscore may separate two digits (no trailing or
doubled underscores). -/
def hexTail : List Char → Bool
  | [] => true
  | '_' :: [] => false
  | '_' :: d :: rest => isHexDigitPy d && hexTail rest
  | c :: rest => isHexDigitPy c && hexTail rest

/-- A Python base-16 digit run without a `0x` prefix: at least one digit,
no leading underscore. -/
def pyHexDigits : List Char → Bool
  | [] => false
  | c :: rest => isHexDigitPy c && hexTail rest

/-- The body of a Python base-16 integer literal after the optional sign:
an optional `0x`/`0X` prefix (an underscore may follow the prefix) and a
non-empty digit run. -/
def pyHexBody : List Char → Bool
  | '0' :: 'x' :: rest => !rest.isEmpty && hexTail rest
  | '0' :: 'X' :: rest => !rest.isEmpty && hexTail rest
  | l => pyHexDigits l

/-- A Python base-16 integer literal after surrounding whitespace has been
stripped: an optional single sign then the literal body. -/
def pyHexSigned : List Char → Bool
  | '+' :: rest => pyHexBody rest
  | '-' :: rest => pyHexBody rest
  | l => pyHexBody l

/-- Whether Python `int(s, 16)` succeeds (ASCII): strip surrounding
whitespace, allow an optional sign and `0x` prefix, then hexadecimal digits
with single interior underscores. -/
def pyIntHexOk (s : String) : Bool :=
  pyHexSigned ((s.data.dropWhile isPySpace).reverse.dropWhile isPySpace).reverse

/-- Python `str.replace("urn:", "")`: scan left to right, removing each
non-overlapping occurrence of `urn:`. -/
def removeUrn : List Char → List Char
  | 'u' :: 'r' :: 'n' :: ':' :: rest => removeUrn rest
  | c :: rest => c :: removeUrn rest
  | [] => []

/-- Python `str.replace("uuid:", "")`: scan left to right, removing each
non-overlapping occurrence of `uuid:`. -/
def removeUuidTag : List Char → List Char
  | 'u' :: 'u' :: 'i' :: 'd' :: ':' :: rest => removeUuidTag rest
  | c :: rest => c :: removeUuidTag rest
  | [] => []

/-- The `uuid.UUID(check_uuid)` constructor of the Python standard library,
as called by `is_valid_uuid`: remove every occurrence of `urn:` and then
of `uuid:`, strip surrounding braces, remove every hyphen
(`.replace("-", "")`), require exactly 32 remaining characters forming a
valid base-16 integer literal. -/
def pyUuidOk (s : String) : Bool :=
  let h := String.mk (removeUuidTag (removeUrn s.data))
  let h := pyStripWith (fun c => c = '\x7b' || c = '\x7d') h
  let h := String.mk (h.data.filter (fun c => c ≠ '-'))
  h.length = 32 && pyIntHexOk h

/-- `is_valid_uuid`: true iff `uuid.UUID(check_uuid)` does not raise. -/
def is_valid_uuid (check_uuid : String) : Bool := pyUuidOk check_uuid

/-- `assert_valid_uuid_list`: for truthy input, split on commas and assert
that each stripped item is a valid UUID; the assertion fires on the first
invalid item, naming it.  Falsy input passes through. -/
def assert_valid_uuid_list (whitelist : Option String) :
    Except String (Option String) :=
  match whitelist with
  | none => .ok none
  | some s =>
    if s.isEmpty then .ok (some s)
    else
      match (pySplit ',' s).find? (fun item => !is_valid_uuid (pyStrip item)) with
      | some bad => .error (pyStrip bad ++ " is not a valid UUID")
      | none => .ok (some s)

/-- The allowed log levels, in the order of the source tuple. -/
def allowedLevels : List String :=
  ["CRITICAL", "FATAL", "ERROR", "WARNING", "WARN", "INFO", "DEBUG", "NOTSET"]

/-- Python rendering of the `allowed_levels` tuple, as interpolated into the
assertion message of `assert_valid_log_level`. -/
def allowedLevelsRendered : String :=
  "(\x27CRITICAL\x27, \x27FATAL\x27, \x27ERROR\x27, \x27WARNING\x27, " ++
    "\x27WARN\x27, \x27INFO\x27, \x27DEBUG\x27, \x27NOTSET\x27)"

/-- `assert_valid_log_level`: truthy input is uppercased then required to be
one of the eight allowed levels, returning the uppercased value; falsy
input passes through. -/
def assert_valid_log_level (log_level : Option String) :
    Except String (Option String) :=
  match log_level with
  | none => .ok none
  | some s =>
    if s.isEmpty then .ok (some s)
    else
      let u := pyUpper s
      if allowedLevels.contains u then .ok (some u)
      else .error (u ++ " not in " ++ allowedLevelsRendered)

/-- `assert_valid_int_list`: for truthy input, split on commas and assert
that each stripped item satisfies `isdecimal`; the assertion fires on the
first invalid item, naming it.  Falsy input passes through. -/
def assert_valid_int_list (int_list : Option String) :
    Except String (Option String) :=
  match int_list with
  | none => .ok none
  | some s =>
    if s.isEmpty then .ok (some s)
    else
      match (pySplit ',' s).find? (fun item => !pyIsDecimal (pyStrip item)) with
      | some bad => .error (pyStrip bad ++ " is not a valid integer.")
      | none => .ok (some s)

/-! ### Helper lemmas -/

lemma isEmpty_false_of_ne {s : String} (h : s ≠ "") : s.isEmpty = false := by
  rw [Bool.eq_false_iff]
  intro hc
  exact h ((String.isEmpty_iff s).mp hc)

lemma orgStack_getLast (t s : String) :
    ((t ++ "-" ++ s) ++ "-abcdefgh").data.getLast? = some 'h' := by
  rw [String.data_append]
  rw [List.getLast?_append_of_ne_nil _ (by decide)]
  decide

lemma orgStack_length (t s : String) :
    ((t ++ "-" ++ s) ++ "-abcdefgh").length = t.length + s.length + 10 := by
  rw [String.length_append, String.length_append, String.length_append]
  have h1 : "-".length = 1 := rfl
  have h2 : "-abcdefgh".length = 9 := rfl
  omega

lemma validate_error_short {ticker : String} (stack : String)
    (h1 : ticker.length ≤ 1) :
    validate_ticker_stack_combination ticker stack =
      .error "Ticker cannot be less than 2 characters" := by
  simp [validate_ticker_stack_combination, h1]

lemma validate_error_long {ticker : String} (stack : String)
    (h1 : ¬ ticker.length ≤ 1) (h2 : 7 ≤ ticker.length) :
    validate_ticker_stack_combination ticker stack =
      .error "Ticker cannot be more than 6 characters" := by
  simp [validate_ticker_stack_combination, h1, h2]

lemma validate_isOk_false (ticker stack : String)
    (h : ((ticker ++ "-" ++ stack) ++ "-abcdefgh").length > 20 ∨
      ∃ c ∈ ((ticker ++ "-" ++ stack) ++ "-abcdefgh").data, identChar c = false) :
    (validate_ticker_stack_combination ticker stack).isOk = false := by
  have hd : ((ticker ++ "-" ++ stack) ++ "-abcdefgh").length =
      ((ticker ++ "-" ++ stack) ++ "-abcdefgh").data.length := rfl
  by_cases h1 : ticker.length ≤ 1
  · simp [validate_ticker_stack_combination, h1, Except.isOk, Except.toBool]
  · by_cases h2 : 7 ≤ ticker.length
    · simp [validate_ticker_stack_combination, h1, h2, Except.isOk,
        Except.toBool]
    · by_cases h3 :
        pyMatchIdent ((ticker ++ "-" ++ stack) ++ "-abcdefgh") = true
      · exfalso
        unfold pyMatchIdent matchIdentList at h3
        rw [orgStack_getLast] at h3
        have hne : decide (some 'h' = some '\n') = false := by decide
        rw [hne, Bool.false_and, Bool.or_false] at h3
        unfold classRun at h3
        rw [Bool.and_eq_true, Bool.and_eq_true] at h3
        obtain ⟨⟨h3a, h3b⟩, h3c⟩ := h3
        rw [decide_eq_true_eq] at h3a h3b
        rw [List.all_eq_true] at h3c
        rcases h with hgt | ⟨c, hc, hbad⟩
        · omega
        · have hcontra := h3c c hc
          rw [hbad] at hcontra
          exact Bool.false_ne_true hcontra
      · simp [validate_ticker_stack_combination, h1, h2, h3, Except.isOk,
          Except.toBool]

lemma validate_ok (ticker stack : String)
    (hlen : ((ticker ++ "-" ++ stack) ++ "-abcdefgh").length ≤ 20)
    (hall : ∀ c ∈ ((ticker ++ "-" ++ stack) ++ "-abcdefgh").data,
      identChar c = true)
    (ht1 : 2 ≤ ticker.length) (ht2 : ticker.length ≤ 6) :
    validate_ticker_stack_combination ticker stack =
      .ok (ticker ++ "-" ++ stack) := by
  have hd : ((ticker ++ "-" ++ stack) ++ "-abcdefgh").length =
      ((ticker ++ "-" ++ stack) ++ "-abcdefgh").data.length := rfl
  have h1 : ¬ ticker.length ≤ 1 := by omega
  have h2 : ¬ 7 ≤ ticker.length := by omega
  have h3 : pyMatchIdent ((ticker ++ "-" ++ stack) ++ "-abcdefgh") = true := by
    unfold pyMatchIdent matchIdentList
    have hcr :
        classRun ((ticker ++ "-" ++ stack) ++ "-abcdefgh").data = true := by
      unfold classRun
      rw [Bool.and_eq_true, Bool.and_eq_true]
      refine ⟨⟨?_, ?_⟩, List.all_eq_true.mpr hall⟩
      · rw [decide_eq_true_eq]
        have := orgStack_length ticker stack
        omega
      · rw [decide_eq_true_eq]
        omega
    rw [hcr, Bool.true_or]
  simp [validate_ticker_stack_combination, h1, h2, h3]

lemma org_chars_good (t s : String)
    (ht : ∀ c ∈ t.data, identChar c = true)
    (hs : ∀ c ∈ s.data, identChar c = true) :
    ∀ c ∈ ((t ++ "-" ++ s) ++ "-abcdefgh").data, identChar c = true := by
  intro c hc
  rw [String.data_append, String.data_append, String.data_append] at hc
  rw [List.mem_append, List.mem_append, List.mem_append] at hc
  rcases hc with ((hc | hc) | hc) | hc
  · exact ht c hc
  · have hcd : c = '-' := by simpa using hc
    subst hcd
    decide
  · exact hs c hc
  · have hl : "-abcdefgh".data = ['-', 'a', 'b', 'c', 'd', 'e', 'f', 'g', 'h'] :=
      rfl
    rw [hl] at hc
    simp only [List.mem_cons, List.not_mem_nil, or_false] at hc
    rcases hc with rfl | rfl | rfl | rfl | rfl | rfl | rfl | rfl | rfl <;> decide

/-! ### Claim theorems -/

/-- Claim C1: for every (ticker, stack) pair,
`validate_ticker_stack_combination` fails when the padded candidate
`ticker ++ "-" ++ stack ++ "-abcdefgh"` is longer than 20 characters or
contains a character outside `[a-zA-Z0-9-]`; otherwise, for a ticker of
legal length (2 to 6), it returns exactly `ticker ++ "-" ++ stack`, without
the 8-character padding suffix. -/
theorem c1_pattern_characterisation (ticker stack : String) :
    (((ticker ++ "-" ++ stack) ++ "-abcdefgh").length > 20 ∨
        (∃ c ∈ ((ticker ++ "-" ++ stack) ++ "-abcdefgh").data,
          identChar c = false) →
      (validate_ticker_stack_combination ticker stack).isOk = false) ∧
    (((ticker ++ "-" ++ stack) ++ "-abcdefgh").length ≤ 20 →
      (∀ c ∈ ((ticker ++ "-" ++ stack) ++ "-abcdefgh").data,
        identChar c = true) →
      2 ≤ ticker.length → ticker.length ≤ 6 →
      validate_ticker_stack_combination ticker stack =
        .ok (ticker ++ "-" ++ stack)) :=
  ⟨validate_isOk_false ticker stack,
   validate_ok ticker stack⟩

/-- Witness for C1 at concrete inputs: a 30-character padded candidate is
rejected, and ("tkr", "stack") is accepted and returns "tkr-stack". -/
theorem c1_witness :
    (validate_ticker_stack_combination "tk" "atickernamethatistoo").isOk =
      false ∧
    validate_ticker_stack_combination "tkr" "stack" =
      .ok ("tkr" ++ "-" ++ "stack") :=
  ⟨(c1_pattern_characterisation "tk" "atickernamethatistoo").1
      (Or.inl (by decide)),
   (c1_pattern_characterisation "tkr" "stack").2 (by decide) (by decide)
      (by decide) (by decide)⟩

/-- Claim C2: for every ticker over the identifier alphabet, combined with
a stack over the identifier alphabet short enough that the padded candidate
satisfies the pattern length bound, validation succeeds iff the ticker
length L satisfies 2 ≤ L ≤ 6; L ≤ 1 fails with the ticker-too-short
message, L ≥ 7 fails with the ticker-too-long message, and the two messages
are distinct. -/
theorem c2_ticker_length_bounds (ticker stack : String)
    (ht : ∀ c ∈ ticker.data, identChar c = true)
    (hs : ∀ c ∈ stack.data, identChar c = true)
    (hsl : stack.length ≤ 4) :
    ((validate_ticker_stack_combination ticker stack).isOk = true ↔
      2 ≤ ticker.length ∧ ticker.length ≤ 6) ∧
    (ticker.length ≤ 1 →
      validate_ticker_stack_combination ticker stack =
        .error "Ticker cannot be less than 2 characters") ∧
    (7 ≤ ticker.length →
      validate_ticker_stack_combination ticker stack =
        .error "Ticker cannot be more than 6 characters") ∧
    ("Ticker cannot be less than 2 characters" : String) ≠
      "Ticker cannot be more than 6 characters" := by
  refine ⟨⟨?_, ?_⟩, ?_, ?_, by decide⟩
  · intro hOk
    by_cases h1 : ticker.length ≤ 1
    · rw [validate_error_short stack h1] at hOk
      exact absurd hOk (by decide)
    · by_cases h2 : 7 ≤ ticker.length
      · rw [validate_error_long stack h1 h2] at hOk
        exact absurd hOk (by decide)
      · omega
  · rintro ⟨ha, hb⟩
    have hok := validate_ok ticker stack
      (by rw [orgStack_length]; omega)
      (org_chars_good ticker stack ht hs) ha hb
    rw [hok]
    rfl
  · intro h1
    exact validate_error_short stack h1
  · intro h2
    exact validate_error_long stack (by omega) h2

/-- Witness for C2 at concrete inputs: length-2 and length-6 tickers
succeed, length-1 and length-7 tickers fail with the two distinct
messages. -/
theorem c2_witness :
    (validate_ticker_stack_combination "ab" "dev").isOk = true ∧
    (validate_ticker_stack_combination "abcdef" "dev").isOk = true ∧
    validate_ticker_stack_combination "a" "dev" =
      .error "Ticker cannot be less than 2 characters" ∧
    validate_ticker_stack_combination "abcdefg" "dev" =
      .error "Ticker cannot be more than 6 characters" :=
  ⟨(c2_ticker_length_bounds "ab" "dev" (by decide) (by decide)
      (by decide)).1.mpr (by decide),
   (c2_ticker_length_bounds "abcdef" "dev" (by decide) (by decide)
      (by decide)).1.mpr (by decide),
   (c2_ticker_length_bounds "a" "dev" (by decide) (by decide)
      (by decide)).2.1 (by decide),
   (c2_ticker_length_bounds "abcdefg" "dev" (by decide) (by decide)
      (by decide)).2.2.1 (by decide)⟩

/-- Claim C3: `raise_billing_or_mgmt` errors when both values are empty
(missing-choice message) and when both are non-empty (ambiguous-choice
message, distinct from the former); when exactly the billing value is
non-empty it returns the pair named BILLING_ACCOUNT_ID carrying it, and
when exactly the mgmt value is non-empty the pair named MGMT_GROUP. -/
theorem c3_exclusive_choice (billing mgmt : String) :
    (billing = "" → mgmt = "" →
      raise_billing_or_mgmt billing mgmt =
        .error ("One of billing_account_id or usage_mgmt_group " ++
          "should be set but neither is.")) ∧
    (billing ≠ "" → mgmt ≠ "" →
      raise_billing_or_mgmt billing mgmt =
        .error ("Only one of billing_account_id or usage_mgmt_group " ++
          "should be set but both are.")) ∧
    ("One of billing_account_id or usage_mgmt_group " ++
        "should be set but neither is." : String) ≠
      ("Only one of billing_account_id or usage_mgmt_group " ++
        "should be set but both are.") ∧
    (billing ≠ "" → mgmt = "" →
      raise_billing_or_mgmt billing mgmt =
        .ok ⟨"BILLING_ACCOUNT_ID", billing⟩) ∧
    (billing = "" → mgmt ≠ "" →
      raise_billing_or_mgmt billing mgmt = .ok ⟨"MGMT_GROUP", mgmt⟩) := by
  refine ⟨?_, ?_, by decide, ?_, ?_⟩
  · rintro rfl rfl
    decide
  · intro hb hm
    have hbe := isEmpty_false_of_ne hb
    have hme := isEmpty_false_of_ne hm
    simp [raise_billing_or_mgmt, hbe, hme]
  · rintro hb rfl
    have hbe := isEmpty_false_of_ne hb
    have hee : ("" : String).isEmpty = true := rfl
    simp [raise_billing_or_mgmt, hbe, hee]
  · rintro rfl hm
    have hme := isEmpty_false_of_ne hm
    have hee : ("" : String).isEmpty = true := rfl
    simp [raise_billing_or_mgmt, hme, hee]

/-- Witness for C3 at concrete inputs, matching the repository's own test
values. -/
theorem c3_witness :
    raise_billing_or_mgmt "mybillinggroup" "" =
      .ok ⟨"BILLING_ACCOUNT_ID", "mybillinggroup"⟩ ∧
    raise_billing_or_mgmt "" "mymgmtgroup" = .ok ⟨"MGMT_GROUP", "mymgmtgroup"⟩ ∧
    raise_billing_or_mgmt "" "" =
      .error ("One of billing_account_id or usage_mgmt_group " ++
        "should be set but neither is.") ∧
    raise_billing_or_mgmt "x" "y" =
      .error ("Only one of billing_account_id or usage_mgmt_group " ++
        "should be set but both are.") :=
  ⟨(c3_exclusive_choice "mybillinggroup" "").2.2.2.1 (by decide) rfl,
   (c3_exclusive_choice "" "mymgmtgroup").2.2.2.2 rfl (by decide),
   (c3_exclusive_choice "" "").1 rfl rfl,
   (c3_exclusive_choice "x" "y").2.1 (by decide) (by decide)⟩

/-- Counterexample to claim C4: on the integer-kind input "1, 7, 14, 21"
the formatter `format_list_int` returns "[1, 7, 14, 21]", which is not the
JSON array of quoted trimmed strings the claim describes — the output
contains no double-quote character at all, so the integers are emitted as
bare unquoted JSON numbers. -/
theorem c4_counterexample :
    format_list_int (some "1, 7, 14, 21") = some "[1, 7, 14, 21]" ∧
    format_list_int (some "1, 7, 14, 21") ≠
      some "[\x221\x22, \x227\x22, \x2214\x22, \x2221\x22]" ∧
    ∀ c ∈ "[1, 7, 14, 21]".data, c ≠ '\x22' := by decide

/-- Claim C4 as amended: for every non-empty comma-separated input of
integer kind, `format_list_int` returns the input wrapped verbatim in
square brackets — elements are emitted as bare untrimmed numbers, not as
quoted strings. -/
theorem c4_amended (s : String) (h : s ≠ "") :
    format_list_int (some s) = some ("[" ++ s ++ "]") := by
  have he := isEmpty_false_of_ne h
  simp [format_list_int, he]

/-- Witness for the amended C4 at a concrete input. -/
theorem c4_witness :
    format_list_int (some "1, 7, 30") = some ("[" ++ "1, 7, 30" ++ "]") :=
  c4_amended "1, 7, 30" (by decide)

/-- Claim C9: the two historical copies of
`validate_ticker_stack_combination` are not extensionally equal — the
ticker "abcdef" of length 6 (with the pattern-valid stack "dev") is
accepted by the current copy and rejected by the older one — while both
copies enforce the same pattern: both accept a padded candidate of exactly
20 characters and both reject one of 21. -/
theorem c9_historical_divergence :
    validate_ticker_stack_combination "abcdef" "dev" = .ok "abcdef-dev" ∧
    (validate_ticker_stack_combination_v0 "abcdef" "dev").isOk = false ∧
    "abcdef".length = 6 ∧
    (validate_ticker_stack_combination "tk" "stack678").isOk = true ∧
    (validate_ticker_stack_combination_v0 "tk" "stack678").isOk = true ∧
    ((("tk" ++ "-" ++ "stack678") ++ "-abcdefgh").length = 20) ∧
    (validate_ticker_stack_combination "tk" "stack6789").isOk = false ∧
    (validate_ticker_stack_combination_v0 "tk" "stack6789").isOk = false ∧
    ((("tk" ++ "-" ++ "stack6789") ++ "-abcdefgh").length = 21) := by decide

/-- Claim C10: every optional-input validator treats the empty string like
absent input, returning it unchanged with no validation: in particular
`assert_str_true_or_false` accepts "" although "" is neither "true" nor
"false", and `format_list_str` returns "" rather than "[]". -/
theorem c10_empty_passthrough :
    assert_str_true_or_false (some "") = .ok (some "") ∧
    assert_valid_uuid_list (some "") = .ok (some "") ∧
    assert_valid_int_list (some "") = .ok (some "") ∧
    assert_valid_log_level (some "") = .ok (some "") ∧
    format_list_str (some "") = some "" ∧
    format_list_str (some "") ≠ some "[]" ∧
    ("" : String) ≠ "true" ∧ ("" : String) ≠ "false" := by decide

/-- Modelled from the spec's words: a UUID in canonical 8-4-4-4-12
hex-and-hyphen grouping — 36 characters with hyphens exactly at positions
8, 13, 18 and 23 and hexadecimal digits elsewhere.  Used only to state what
claim C5 asserts; the source's own notion is `is_valid_uuid`. -/
def canonicalUuid (s : String) : Bool :=
  s.length = 36 &&
    (List.range 36).all fun i =>
      if i = 8 || i = 13 || i = 18 || i = 23 then s.data.getD i ' ' = '-'
      else isHexDigitPy (s.data.getD i ' ')

/-- Counterexample to claim C5: `assert_valid_uuid_list` accepts the
element "12345678123412341234123456789012", which is not in canonical
8-4-4-4-12 grouping (Python `uuid.UUID` strips hyphens before parsing, so
the grouping is not required). -/
theorem c5_counterexample :
    assert_valid_uuid_list (some "12345678123412341234123456789012") =
      .ok (some "12345678123412341234123456789012") ∧
    canonicalUuid "12345678123412341234123456789012" = false := by decide

/-- Claim C5 as amended: for every non-empty comma-separated input,
`assert_valid_uuid_list` succeeds iff every stripped element parses under
Python's permissive `uuid.UUID` rules (which also accept non-canonical
forms such as 32 hex digits without hyphens); when it fails, the error
names the first invalid element encountered scanning left to right. -/
theorem c5_amended (s : String) (h : s ≠ "") :
    (assert_valid_uuid_list (some s) = .ok (some s) ↔
      ∀ item ∈ pySplit ',' s, is_valid_uuid (pyStrip item) = true) ∧
    (∀ bad,
      (pySplit ',' s).find? (fun item => !is_valid_uuid (pyStrip item)) =
        some bad →
      assert_valid_uuid_list (some s) =
        .error (pyStrip bad ++ " is not a valid UUID")) := by
  have he := isEmpty_false_of_ne h
  constructor
  · constructor
    · intro hOk
      cases hf : (pySplit ',' s).find?
          (fun item => !is_valid_uuid (pyStrip item)) with
      | some bad =>
        rw [show assert_valid_uuid_list (some s) =
            .error (pyStrip bad ++ " is not a valid UUID") from by
          simp [assert_valid_uuid_list, he, hf]] at hOk
        exact absurd hOk (by simp)
      | none =>
        rw [List.find?_eq_none] at hf
        intro item hitem
        simpa using hf item hitem
    · intro hall
      have hf : (pySplit ',' s).find?
          (fun item => !is_valid_uuid (pyStrip item)) = none := by
        rw [List.find?_eq_none]
        intro x hx
        simp [hall x hx]
      simp [assert_valid_uuid_list, he, hf]
  · intro bad hbad
    simp [assert_valid_uuid_list, he, hbad]

/-- Witness for the amended C5: a list whose second and third entries are
both malformed fails naming the second (the first invalid one), and a list
of two valid UUIDs is accepted. -/
theorem c5_witness :
    assert_valid_uuid_list
        (some "00000000-0000-0000-0000-000000000000, nope, bad") =
      .error "nope is not a valid UUID" ∧
    assert_valid_uuid_list
        (some "00000000-0000-0000-0000-000000000000, 12345678123412341234123456789012") =
      .ok (some "00000000-0000-0000-0000-000000000000, 12345678123412341234123456789012") :=
  ⟨(c5_amended "00000000-0000-0000-0000-000000000000, nope, bad"
      (by decide)).2 " nope" (by decide),
   (c5_amended
      "00000000-0000-0000-0000-000000000000, 12345678123412341234123456789012"
      (by decide)).1.mpr (by decide)⟩

/-- Counterexample to claim C6: the string-list formatter `format_list_str`
is not idempotent on its own output — re-running it on the output for "abc"
re-quotes the element. -/
theorem c6_counterexample :
    format_list_str (format_list_str (some "abc")) ≠
      format_list_str (some "abc") := by decide

/-- Claim C6 as amended: every assert-style validator is idempotent on its
own successful output (re-validating "INFO" returns "INFO"), but the
formatter `format_list_str` is excluded: it re-quotes its own output (see
the counterexample). -/
theorem c6_amended (x v : Option String) :
    (assert_valid_log_level x = .ok v → assert_valid_log_level v = .ok v) ∧
    (assert_valid_int_list x = .ok v → assert_valid_int_list v = .ok v) ∧
    (assert_valid_uuid_list x = .ok v → assert_valid_uuid_list v = .ok v) ∧
    (assert_str_true_or_false x = .ok v →
      assert_str_true_or_false v = .ok v) := by
  refine ⟨?_, ?_, ?_, ?_⟩
  · intro hx
    cases x with
    | none =>
      simp [assert_valid_log_level] at hx
      subst hx
      rfl
    | some s =>
      by_cases hse : s.isEmpty = true
      · simp [assert_valid_log_level, hse] at hx
        subst hx
        simp [assert_valid_log_level, hse]
      · by_cases hmem : pyUpper s ∈ allowedLevels
        · simp [assert_valid_log_level, hse, hmem] at hx
          subst hx
          simp only [allowedLevels] at hmem
          simp at hmem
          rcases hmem with h | h | h | h | h | h | h | h <;> rw [h] <;> decide
        · simp [assert_valid_log_level, hse, hmem] at hx
  · intro hx
    cases x with
    | none =>
      simp [assert_valid_int_list] at hx
      subst hx
      rfl
    | some s =>
      by_cases hse : s.isEmpty = true
      · simp [assert_valid_int_list, hse] at hx
        subst hx
        simp [assert_valid_int_list, hse]
      · cases hf : (pySplit ',' s).find?
            (fun item => !pyIsDecimal (pyStrip item)) with
        | some bad => simp [assert_valid_int_list, hse, hf] at hx
        | none =>
          simp [assert_valid_int_list, hse, hf] at hx
          subst hx
          simp [assert_valid_int_list, hse, hf]
  · intro hx
    cases x with
    | none =>
      simp [assert_valid_uuid_list] at hx
      subst hx
      rfl
    | some s =>
      by_cases hse : s.isEmpty = true
      · simp [assert_valid_uuid_list, hse] at hx
        subst hx
        simp [assert_valid_uuid_list, hse]
      · cases hf : (pySplit ',' s).find?
            (fun item => !is_valid_uuid (pyStrip item)) with
        | some bad => simp [assert_valid_uuid_list, hse, hf] at hx
        | none =>
          simp [assert_valid_uuid_list, hse, hf] at hx
          subst hx
          simp [assert_valid_uuid_list, hse, hf]
  · intro hx
    cases x with
    | none =>
      simp [assert_str_true_or_false] at hx
      subst hx
      rfl
    | some s =>
      by_cases hse : s.isEmpty = true
      · simp [assert_str_true_or_false, hse] at hx
        subst hx
        simp [assert_str_true_or_false, hse]
      · by_cases h1 : s = "true"
        · subst h1
          simp [assert_str_true_or_false] at hx
          subst hx
          decide
        · by_cases h2 : s = "false"
          · subst h2
            simp [assert_str_true_or_false] at hx
            subst hx
            decide
          · simp [assert_str_true_or_false, hse, h1, h2] at hx

/-- Witness for the amended C6 at concrete inputs: each assert-style
validator re-applied to its own successful output is a no-op. -/
theorem c6_witness :
    assert_valid_log_level (some "INFO") = .ok (some "INFO") ∧
    assert_valid_int_list (some "1, 2") = .ok (some "1, 2") ∧
    assert_valid_uuid_list (some "00000000-0000-0000-0000-000000000000") =
      .ok (some "00000000-0000-0000-0000-000000000000") ∧
    assert_str_true_or_false (some "true") = .ok (some "true") :=
  ⟨(c6_amended (some "info") (some "INFO")).1 (by decide),
   (c6_amended (some "1, 2") (some "1, 2")).2.1 (by decide),
   (c6_amended (some "00000000-0000-0000-0000-000000000000")
      (some "00000000-0000-0000-0000-000000000000")).2.2.1 (by decide),
   (c6_amended (some "true") (some "true")).2.2.2 (by decide)⟩

/-- Claim C7: for every non-empty comma-separated input,
`assert_valid_int_list` succeeds iff every stripped element is non-empty
and composed only of decimal digits; on failure the error names the first
offending stripped element. -/
theorem c7_int_list_characterisation (s : String) (h : s ≠ "") :
    (assert_valid_int_list (some s) = .ok (some s) ↔
      ∀ item ∈ pySplit ',' s, pyIsDecimal (pyStrip item) = true) ∧
    (∀ bad,
      (pySplit ',' s).find? (fun item => !pyIsDecimal (pyStrip item)) =
        some bad →
      assert_valid_int_list (some s) =
        .error (pyStrip bad ++ " is not a valid integer.")) := by
  have he := isEmpty_false_of_ne h
  constructor
  · constructor
    · intro hOk
      cases hf : (pySplit ',' s).find?
          (fun item => !pyIsDecimal (pyStrip item)) with
      | some bad =>
        rw [show assert_valid_int_list (some s) =
            .error (pyStrip bad ++ " is not a valid integer.") from by
          simp [assert_valid_int_list, he, hf]] at hOk
        exact absurd hOk (by simp)
      | none =>
        rw [List.find?_eq_none] at hf
        intro item hitem
        simpa using hf item hitem
    · intro hall
      have hf : (pySplit ',' s).find?
          (fun item => !pyIsDecimal (pyStrip item)) = none := by
        rw [List.find?_eq_none]
        intro x hx
        simp [hall x hx]
      simp [assert_valid_int_list, he, hf]
  · intro bad hbad
    simp [assert_valid_int_list, he, hbad]

/-- Witness for C7: "1, 7, 14, 21" is accepted and returned unchanged,
"12.4" fails with an error naming "12.4". -/
theorem c7_witness :
    assert_valid_int_list (some "1, 7, 14, 21") = .ok (some "1, 7, 14, 21") ∧
    assert_valid_int_list (some "12.4") =
      .error "12.4 is not a valid integer." :=
  ⟨(c7_int_list_characterisation "1, 7, 14, 21" (by decide)).1.mpr (by decide),
   (c7_int_list_characterisation "12.4" (by decide)).2 "12.4" (by decide)⟩

/-- Claim C8: `assert_valid_log_level` maps None to None; a non-empty input
is uppercased and returned if the uppercased value belongs to the fixed
8-element level set, otherwise it fails with a message reporting the
uppercased value and the allowed set; "info" yields "INFO". -/
theorem c8_log_level (s : String) (h : s ≠ "") :
    assert_valid_log_level none = .ok none ∧
    (pyUpper s ∈ allowedLevels →
      assert_valid_log_level (some s) = .ok (some (pyUpper s))) ∧
    (pyUpper s ∉ allowedLevels →
      assert_valid_log_level (some s) =
        .error (pyUpper s ++ " not in " ++ allowedLevelsRendered)) ∧
    allowedLevels.length = 8 ∧
    assert_valid_log_level (some "info") = .ok (some "INFO") := by
  have he := isEmpty_false_of_ne h
  refine ⟨rfl, ?_, ?_, by decide, by decide⟩
  · intro hmem
    simp [assert_valid_log_level, he, hmem]
  · intro hmem
    simp [assert_valid_log_level, he, hmem]

/-- Witness for C8 at concrete inputs: "info" (member after uppercasing)
and "bogus" (not a member). -/
theorem c8_witness :
    assert_valid_log_level (some "info") = .ok (some "INFO") ∧
    assert_valid_log_level (some "bogus") =
      .error ("BOGUS not in " ++ allowedLevelsRendered) :=
  ⟨(c8_log_level "info" (by decide)).2.1 (by decide),
   (c8_log_level "bogus" (by decide)).2.2.1 (by decide)⟩

end Rctab
